import Mathlib

/-
Verification of the LickStick FDC2214 capacitive-sensor driver
(src/Firmware/LickStick/FDC2214.h and FDC2214.cpp).

The driver is embedded shallowly:
  - the object state (the activeChannel and chConfigBit bytes and the
    four bytes of the typeBuffer union) is an explicit record of Nats,
    kept below 256 by taking the value modulo 256 at every assignment
    to a byte, exactly where the C++ byte type truncates;
  - the typeBuffer union maps little-endian, as on the target MCU:
    uint8[0] is the low byte of uint16[0] and of uint32[0];
  - every Wire transaction becomes an event in a trace: a write
    transaction records the device address and the bytes sent, a read
    request records the device address and the byte count;
  - bytes delivered by the bus on reads are extra arguments of the
    read operations, quantified over in the theorems.
-/

namespace LickStick

/-- Fixed 7-bit bus address of the sensor chip. -/
def ADDRESS : Nat := 42

def REG_RCOUNT_CH0 : Nat := 8
def REG_RCOUNT_CH1 : Nat := 9
def REG_SETTLECOUNT_CH0 : Nat := 16
def REG_SETTLECOUNT_CH1 : Nat := 17
def REG_CLKDIVIDERS_CH0 : Nat := 20
def REG_CLKDIVIDERS_CH1 : Nat := 21
def REG_STATUS : Nat := 24
def REG_ERRCONFIG : Nat := 25
def REG_CONFIG : Nat := 26
def REG_MUXCONFIG : Nat := 27
def REG_RESET : Nat := 28
def REG_DRIVECURRENT_CH0 : Nat := 30
def REG_DRIVECURRENT_CH1 : Nat := 31
def REG_MFGID : Nat := 126

/-- One bus transaction: either a write of a byte list to a device
address (beginTransmission, write, endTransmission) or a read request
for a byte count (requestFrom). -/
inductive BusEvent where
  | writeTx : Nat → List Nat → BusEvent
  | readReq : Nat → Nat → BusEvent
deriving DecidableEq, Repr

namespace FDC2214

/-- Driver object state: the two private bytes activeChannel and
chConfigBit, and the four bytes of the public typeBuffer union
(tb0 = uint8[0], low byte, through tb3 = uint8[3], high byte). -/
structure State where
  activeChannel : Nat
  chConfigBit : Nat
  tb0 : Nat
  tb1 : Nat
  tb2 : Nat
  tb3 : Nat
deriving DecidableEq, Repr

/-- State after the constructor: the field initializers of the header
give activeChannel = 0 and chConfigBit = 0 (the constructor itself only
drives pins and issues no bus traffic; the typeBuffer bytes start
indeterminate in C++ and are taken as 0 here, no claim depends on
them). -/
def mk : State :=
  { activeChannel := 0, chConfigBit := 0, tb0 := 0, tb1 := 0, tb2 := 0, tb3 := 0 }

/-- Models Arduino bitClear on a byte variable: clear bit n, that is,
mask with the 8-bit complement of the single-bit mask. -/
def bitClear8 (b n : Nat) : Nat := b &&& (255 ^^^ (1 <<< n))

/-- sendByte: one write transaction carrying the single byte. -/
def sendByte (s : State) (aByte : Nat) : State × List BusEvent :=
  (s, [BusEvent.writeTx ADDRESS [aByte % 256]])

/-- writeRegister16: stores regID, msb, lsb into typeBuffer bytes 0..2
and sends the three bytes as one write transaction. The byte-typed
parameters truncate their arguments modulo 256. -/
def writeRegister16 (s : State) (regID msb lsb : Nat) : State × List BusEvent :=
  let s1 := { s with tb0 := regID % 256, tb1 := msb % 256, tb2 := lsb % 256 }
  (s1, [BusEvent.writeTx ADDRESS [regID % 256, msb % 256, lsb % 256]])

/-- readRegister16: sends the register address, requests two bytes,
stores the first received byte in typeBuffer uint8[1] and the second in
uint8[0], and returns uint16[0]. The bytes b1 and b2 are those the bus
delivers, in order. -/
def readRegister16 (s : State) (regID b1 b2 : Nat) : State × Nat × List BusEvent :=
  let r1 := sendByte s (regID % 256)
  let s2 := { r1.1 with tb1 := b1 % 256, tb0 := b2 % 256 }
  (s2, s2.tb1 * 256 + s2.tb0, r1.2 ++ [BusEvent.readReq ADDRESS 2])

/-- readSensor: reads register activeChannel * 2 into typeBuffer bytes
3 and 2, register activeChannel * 2 + 1 into bytes 1 and 0, clears bits
5 and 4 of byte 3, and returns uint32[0]. The bytes b1..b4 are those
the bus delivers, in order. -/
def readSensor (s : State) (b1 b2 b3 b4 : Nat) : State × Nat × List BusEvent :=
  let regAddress := (s.activeChannel * 2) % 256
  let r1 := sendByte s regAddress
  let s2 := { r1.1 with tb3 := b1 % 256, tb2 := b2 % 256 }
  let r2 := sendByte s2 ((regAddress + 1) % 256)
  let s3 := { r2.1 with tb1 := b3 % 256, tb0 := b4 % 256 }
  let s4 := { s3 with tb3 := bitClear8 s3.tb3 5 }
  let s5 := { s4 with tb3 := bitClear8 s4.tb3 4 }
  (s5, s5.tb3 * 2 ^ 24 + s5.tb2 * 2 ^ 16 + s5.tb1 * 2 ^ 8 + s5.tb0,
    r1.2 ++ [BusEvent.readReq ADDRESS 2] ++ r2.2 ++ [BusEvent.readReq ADDRESS 2])

/-- init: the fixed sequence of twelve register writes of FDC2214::init
(the Wire.begin and clock-rate calls are transport setup, not register
writes, and are not events here). -/
def init (s : State) : State × List BusEvent :=
  let r01 := writeRegister16 s REG_RESET 128 0
  let r02 := writeRegister16 r01.1 REG_RCOUNT_CH0 1 0
  let r03 := writeRegister16 r02.1 REG_RCOUNT_CH1 1 0
  let r04 := writeRegister16 r03.1 REG_SETTLECOUNT_CH0 0 10
  let r05 := writeRegister16 r04.1 REG_SETTLECOUNT_CH1 0 10
  let r06 := writeRegister16 r05.1 REG_CLKDIVIDERS_CH0 16 1
  let r07 := writeRegister16 r06.1 REG_CLKDIVIDERS_CH1 16 1
  let r08 := writeRegister16 r07.1 REG_ERRCONFIG 0 1
  let r09 := writeRegister16 r08.1 REG_MUXCONFIG 2 13
  let r10 := writeRegister16 r09.1 REG_DRIVECURRENT_CH0 248 0
  let r11 := writeRegister16 r10.1 REG_DRIVECURRENT_CH1 248 0
  let r12 := writeRegister16 r11.1 REG_CONFIG 30 1
  (r12.1, r01.2 ++ r02.2 ++ r03.2 ++ r04.2 ++ r05.2 ++ r06.2 ++ r07.2 ++ r08.2 ++
    r09.2 ++ r10.2 ++ r11.2 ++ r12.2)

/-- set_RCOUNT: sleep write, store value into typeBuffer uint16[0],
write RCOUNT CH0 then CH1 from typeBuffer bytes 1 and 0 re-read before
each call (writeRegister16 itself overwrites those bytes), wake write.
The uint16 parameter truncates modulo 65536. -/
def set_RCOUNT (s : State) (value : Nat) : State × List BusEvent :=
  let v := value % 65536
  let r1 := writeRegister16 s REG_CONFIG (62 + s.chConfigBit) 1
  let s2 := { r1.1 with tb0 := v % 256, tb1 := (v / 256) % 256 }
  let r3 := writeRegister16 s2 REG_RCOUNT_CH0 s2.tb1 s2.tb0
  let r4 := writeRegister16 r3.1 REG_RCOUNT_CH1 r3.1.tb1 r3.1.tb0
  let r5 := writeRegister16 r4.1 REG_CONFIG (30 + r4.1.chConfigBit) 1
  (r5.1, r1.2 ++ r3.2 ++ r4.2 ++ r5.2)

/-- set_SETTLECOUNT: same shape as set_RCOUNT over the SETTLECOUNT
registers. -/
def set_SETTLECOUNT (s : State) (value : Nat) : State × List BusEvent :=
  let v := value % 65536
  let r1 := writeRegister16 s REG_CONFIG (62 + s.chConfigBit) 1
  let s2 := { r1.1 with tb0 := v % 256, tb1 := (v / 256) % 256 }
  let r3 := writeRegister16 s2 REG_SETTLECOUNT_CH0 s2.tb1 s2.tb0
  let r4 := writeRegister16 r3.1 REG_SETTLECOUNT_CH1 r3.1.tb1 r3.1.tb0
  let r5 := writeRegister16 r4.1 REG_CONFIG (30 + r4.1.chConfigBit) 1
  (r5.1, r1.2 ++ r3.2 ++ r4.2 ++ r5.2)

/-- set_REF_DIVIDER: sleep write, clock-divider writes for CH0 and CH1
with high byte 32 and low byte the argument, wake write. The uint8
parameter truncates modulo 256. -/
def set_REF_DIVIDER (s : State) (value : Nat) : State × List BusEvent :=
  let v := value % 256
  let r1 := writeRegister16 s REG_CONFIG (62 + s.chConfigBit) 1
  let r2 := writeRegister16 r1.1 REG_CLKDIVIDERS_CH0 32 v
  let r3 := writeRegister16 r2.1 REG_CLKDIVIDERS_CH1 32 v
  let r4 := writeRegister16 r3.1 REG_CONFIG (30 + r3.1.chConfigBit) 1
  (r4.1, r1.2 ++ r2.2 ++ r3.2 ++ r4.2)

/-- set_DRIVE_CURRENT: sleep write, drive-current writes for CH0 and
CH1 with high byte the argument shifted left by three (the int-typed
shift result truncates modulo 256 at the byte parameter), wake write. -/
def set_DRIVE_CURRENT (s : State) (value : Nat) : State × List BusEvent :=
  let v := value % 256
  let r1 := writeRegister16 s REG_CONFIG (62 + s.chConfigBit) 1
  let r2 := writeRegister16 r1.1 REG_DRIVECURRENT_CH0 (v * 8) 0
  let r3 := writeRegister16 r2.1 REG_DRIVECURRENT_CH1 (v * 8) 0
  let r4 := writeRegister16 r3.1 REG_CONFIG (30 + r3.1.chConfigBit) 1
  (r4.1, r1.2 ++ r2.2 ++ r3.2 ++ r4.2)

/-- set_ACTIVE_CHANNEL: stores the new channel, recomputes chConfigBit
as newChannel times 64 (truncated to a byte), and writes the main
CONFIG register in the wake state with the new offset. -/
def set_ACTIVE_CHANNEL (s : State) (newChannel : Nat) : State × List BusEvent :=
  let c := newChannel % 256
  let s1 := { s with activeChannel := c }
  let s2 := { s1 with chConfigBit := (c * 64) % 256 }
  writeRegister16 s2 REG_CONFIG (30 + s2.chConfigBit) 1

end FDC2214

/-- Register targeted by a bus event: the first byte of a write
transaction, none for a read request. -/
def targetReg : BusEvent → Option Nat
  | BusEvent.writeTx _ (r :: _) => some r
  | _ => none

/-- Semantics of a register-file transport: a 3-byte write transaction
stores its two data bytes under its register byte; other events leave
the file unchanged. -/
def applyEvent (f : Nat → Nat × Nat) (e : BusEvent) : Nat → Nat × Nat :=
  match e with
  | BusEvent.writeTx _ [r, m, l] => fun x => if x = r then (m, l) else f x
  | _ => f

/-- Round trip against a register-file transport: writeRegister16 of
the high and low bytes of a value, then readRegister16 of the same
register with the bytes the file replays. -/
def roundTrip (s : FDC2214.State) (f : Nat → Nat × Nat) (reg v : Nat) : Nat :=
  let w := FDC2214.writeRegister16 s reg (v / 256) (v % 256)
  let f2 := w.2.foldl applyEvent f
  let bytes := f2 (reg % 256)
  (FDC2214.readRegister16 w.1 reg bytes.1 bytes.2).2.1

/-- Relation between the two configuration fields: chConfigBit is the
active channel times 64, as a byte. -/
def ConfigInv (s : FDC2214.State) : Prop :=
  s.chConfigBit = (s.activeChannel * 64) % 256

/-- Trace of bus events produced by one call to init. -/
def initTrace : List BusEvent :=
  [BusEvent.writeTx 42 [28, 128, 0], BusEvent.writeTx 42 [8, 1, 0],
   BusEvent.writeTx 42 [9, 1, 0], BusEvent.writeTx 42 [16, 0, 10],
   BusEvent.writeTx 42 [17, 0, 10], BusEvent.writeTx 42 [20, 16, 1],
   BusEvent.writeTx 42 [21, 16, 1], BusEvent.writeTx 42 [25, 0, 1],
   BusEvent.writeTx 42 [27, 2, 13], BusEvent.writeTx 42 [30, 248, 0],
   BusEvent.writeTx 42 [31, 248, 0], BusEvent.writeTx 42 [26, 30, 1]]

lemma init_trace_eq (s : FDC2214.State) : (FDC2214.init s).2 = initTrace := rfl

/-- C1: in every call to init, the write to the main CONFIG register
(register 26) is the last register write issued; every other register
write of the sequence occurs strictly before it. -/
theorem C1_init_config_write_last (s : FDC2214.State) :
    (FDC2214.init s).2.map targetReg =
      [some 28, some 8, some 9, some 16, some 17, some 20, some 21, some 25,
       some 27, some 30, some 31, some 26] ∧
    (FDC2214.init s).2.getLast? = some (BusEvent.writeTx 42 [REG_CONFIG, 30, 1]) ∧
    ∀ e ∈ (FDC2214.init s).2.dropLast, targetReg e ≠ some REG_CONFIG := by
  rw [init_trace_eq]
  refine ⟨by decide, by decide, by decide⟩

theorem C1_init_config_write_last_witness :
    (FDC2214.init FDC2214.mk).2.getLast? = some (BusEvent.writeTx 42 [REG_CONFIG, 30, 1]) :=
  (C1_init_config_write_last FDC2214.mk).2.1

/-- C5: readRegister16 returns the first delivered byte as the most
significant byte of the 16-bit result: b1 * 256 + b2, after sending the
register address as a one-byte write transaction and one two-byte read
request. -/
theorem C5_readRegister16_msb_first (s : FDC2214.State) (regID b1 b2 : Nat)
    (h1 : b1 < 256) (h2 : b2 < 256) :
    (FDC2214.readRegister16 s regID b1 b2).2.1 = b1 * 256 + b2 ∧
    (FDC2214.readRegister16 s regID b1 b2).2.2 =
      [BusEvent.writeTx 42 [regID % 256], BusEvent.readReq 42 2] := by
  constructor
  · simp [FDC2214.readRegister16, FDC2214.sendByte]
    omega
  · simp [FDC2214.readRegister16, FDC2214.sendByte, ADDRESS]

theorem C5_readRegister16_msb_first_witness :
    (FDC2214.readRegister16 FDC2214.mk 8 0x12 0x34).2.1 = 0x12 * 256 + 0x34 :=
  (C5_readRegister16_msb_first FDC2214.mk 8 0x12 0x34 (by decide) (by decide)).1

/-- C6: writing a 16-bit value with writeRegister16 and reading the
same register back with readRegister16, over a transport modelled as a
register file that stores and replays the written bytes in order,
returns exactly the value written. -/
theorem C6_write_read_round_trip (s : FDC2214.State) (f : Nat → Nat × Nat)
    (reg v : Nat) (hv : v < 65536) :
    roundTrip s f reg v = v := by
  simp [roundTrip, FDC2214.writeRegister16, FDC2214.readRegister16, FDC2214.sendByte,
    applyEvent]
  omega

theorem C6_write_read_round_trip_witness :
    roundTrip FDC2214.mk (fun _ => (0, 0)) 8 0xBEEF = 0xBEEF :=
  C6_write_read_round_trip FDC2214.mk (fun _ => (0, 0)) 8 0xBEEF (by decide)

/-- C4: for every channel c in 0 and 1, set_ACTIVE_CHANNEL stores c,
sets chConfigBit to c times 0x40, and issues exactly one write of the
main CONFIG register in the wake state whose high byte is 0x1E plus
c times 0x40. -/
theorem C4_set_active_channel_config (s : FDC2214.State) (c : Nat) (hc : c < 2) :
    (FDC2214.set_ACTIVE_CHANNEL s c).1.activeChannel = c ∧
    (FDC2214.set_ACTIVE_CHANNEL s c).1.chConfigBit = c * 0x40 ∧
    (FDC2214.set_ACTIVE_CHANNEL s c).2 =
      [BusEvent.writeTx 42 [REG_CONFIG, 0x1E + c * 0x40, 1]] := by
  refine ⟨?_, ?_, ?_⟩ <;>
    simp [FDC2214.set_ACTIVE_CHANNEL, FDC2214.writeRegister16, REG_CONFIG, ADDRESS] <;>
    omega

theorem C4_set_active_channel_config_witness :
    (FDC2214.set_ACTIVE_CHANNEL FDC2214.mk 1).2 =
      [BusEvent.writeTx 42 [REG_CONFIG, 0x1E + 1 * 0x40, 1]] :=
  (C4_set_active_channel_config FDC2214.mk 1 (by decide)).2.2

/-- C8: set_ACTIVE_CHANNEL validates nothing; for every uint8 argument
c it stores c and computes chConfigBit as c times 0x40 modulo 256, so
c = 4 yields chConfigBit 0, identical to channel 0. -/
theorem C8_set_active_channel_no_validation :
    (∀ (s : FDC2214.State) (c : Nat), c < 256 →
      (FDC2214.set_ACTIVE_CHANNEL s c).1.activeChannel = c ∧
      (FDC2214.set_ACTIVE_CHANNEL s c).1.chConfigBit = (c * 0x40) % 256) ∧
    (∀ s : FDC2214.State,
      (FDC2214.set_ACTIVE_CHANNEL s 4).1.chConfigBit = 0 ∧
      (FDC2214.set_ACTIVE_CHANNEL s 4).1.chConfigBit =
        (FDC2214.set_ACTIVE_CHANNEL s 0).1.chConfigBit) := by
  constructor
  · intro s c hc
    constructor
    · simp [FDC2214.set_ACTIVE_CHANNEL, FDC2214.writeRegister16]
      omega
    · simp [FDC2214.set_ACTIVE_CHANNEL, FDC2214.writeRegister16]
  · intro s
    refine ⟨?_, ?_⟩ <;>
      simp [FDC2214.set_ACTIVE_CHANNEL, FDC2214.writeRegister16]

theorem C8_set_active_channel_no_validation_witness :
    (FDC2214.set_ACTIVE_CHANNEL FDC2214.mk 4).1.activeChannel = 4 ∧
    (FDC2214.set_ACTIVE_CHANNEL FDC2214.mk 4).1.chConfigBit = (4 * 0x40) % 256 :=
  C8_set_active_channel_no_validation.1 FDC2214.mk 4 (by decide)

lemma init_frame (s : FDC2214.State) :
    (FDC2214.init s).1.activeChannel = s.activeChannel ∧
    (FDC2214.init s).1.chConfigBit = s.chConfigBit := by
  constructor <;> simp [FDC2214.init, FDC2214.writeRegister16]

lemma sendByte_frame (s : FDC2214.State) (b : Nat) :
    (FDC2214.sendByte s b).1.activeChannel = s.activeChannel ∧
    (FDC2214.sendByte s b).1.chConfigBit = s.chConfigBit :=
  ⟨rfl, rfl⟩

lemma writeRegister16_frame (s : FDC2214.State) (r m l : Nat) :
    (FDC2214.writeRegister16 s r m l).1.activeChannel = s.activeChannel ∧
    (FDC2214.writeRegister16 s r m l).1.chConfigBit = s.chConfigBit :=
  ⟨rfl, rfl⟩

lemma readRegister16_frame (s : FDC2214.State) (r b1 b2 : Nat) :
    (FDC2214.readRegister16 s r b1 b2).1.activeChannel = s.activeChannel ∧
    (FDC2214.readRegister16 s r b1 b2).1.chConfigBit = s.chConfigBit := by
  constructor <;> simp [FDC2214.readRegister16, FDC2214.sendByte]

lemma readSensor_frame (s : FDC2214.State) (b1 b2 b3 b4 : Nat) :
    (FDC2214.readSensor s b1 b2 b3 b4).1.activeChannel = s.activeChannel ∧
    (FDC2214.readSensor s b1 b2 b3 b4).1.chConfigBit = s.chConfigBit := by
  constructor <;> simp [FDC2214.readSensor, FDC2214.sendByte]

lemma set_RCOUNT_frame (s : FDC2214.State) (v : Nat) :
    (FDC2214.set_RCOUNT s v).1.activeChannel = s.activeChannel ∧
    (FDC2214.set_RCOUNT s v).1.chConfigBit = s.chConfigBit := by
  constructor <;> simp [FDC2214.set_RCOUNT, FDC2214.writeRegister16]

lemma set_SETTLECOUNT_frame (s : FDC2214.State) (v : Nat) :
    (FDC2214.set_SETTLECOUNT s v).1.activeChannel = s.activeChannel ∧
    (FDC2214.set_SETTLECOUNT s v).1.chConfigBit = s.chConfigBit := by
  constructor <;> simp [FDC2214.set_SETTLECOUNT, FDC2214.writeRegister16]

lemma set_REF_DIVIDER_frame (s : FDC2214.State) (v : Nat) :
    (FDC2214.set_REF_DIVIDER s v).1.activeChannel = s.activeChannel ∧
    (FDC2214.set_REF_DIVIDER s v).1.chConfigBit = s.chConfigBit := by
  constructor <;> simp [FDC2214.set_REF_DIVIDER, FDC2214.writeRegister16]

lemma set_DRIVE_CURRENT_frame (s : FDC2214.State) (v : Nat) :
    (FDC2214.set_DRIVE_CURRENT s v).1.activeChannel = s.activeChannel ∧
    (FDC2214.set_DRIVE_CURRENT s v).1.chConfigBit = s.chConfigBit := by
  constructor <;> simp [FDC2214.set_DRIVE_CURRENT, FDC2214.writeRegister16]

lemma ConfigInv_of_frame {s t : FDC2214.State}
    (h1 : t.activeChannel = s.activeChannel) (h2 : t.chConfigBit = s.chConfigBit)
    (h : ConfigInv s) : ConfigInv t := by
  unfold ConfigInv at h ⊢
  rw [h1, h2]
  exact h

/-- C9: the relation chConfigBit = activeChannel * 0x40 mod 256 holds
after construction and is preserved by every public operation of the
driver; set_ACTIVE_CHANNEL updates both fields together and keeps the
relation. -/
theorem C9_config_bit_invariant :
    ConfigInv FDC2214.mk ∧
    (∀ (s : FDC2214.State) (r m l b1 b2 b3 b4 v c : Nat), ConfigInv s →
      ConfigInv (FDC2214.init s).1 ∧
      ConfigInv (FDC2214.sendByte s b1).1 ∧
      ConfigInv (FDC2214.writeRegister16 s r m l).1 ∧
      ConfigInv (FDC2214.readRegister16 s r b1 b2).1 ∧
      ConfigInv (FDC2214.readSensor s b1 b2 b3 b4).1 ∧
      ConfigInv (FDC2214.set_RCOUNT s v).1 ∧
      ConfigInv (FDC2214.set_SETTLECOUNT s v).1 ∧
      ConfigInv (FDC2214.set_REF_DIVIDER s v).1 ∧
      ConfigInv (FDC2214.set_DRIVE_CURRENT s v).1 ∧
      ConfigInv (FDC2214.set_ACTIVE_CHANNEL s c).1) := by
  refine ⟨rfl, ?_⟩
  intro s r m l b1 b2 b3 b4 v c h
  refine ⟨ConfigInv_of_frame (init_frame s).1 (init_frame s).2 h,
    ConfigInv_of_frame (sendByte_frame s b1).1 (sendByte_frame s b1).2 h,
    ConfigInv_of_frame (writeRegister16_frame s r m l).1 (writeRegister16_frame s r m l).2 h,
    ConfigInv_of_frame (readRegister16_frame s r b1 b2).1 (readRegister16_frame s r b1 b2).2 h,
    ConfigInv_of_frame (readSensor_frame s b1 b2 b3 b4).1 (readSensor_frame s b1 b2 b3 b4).2 h,
    ConfigInv_of_frame (set_RCOUNT_frame s v).1 (set_RCOUNT_frame s v).2 h,
    ConfigInv_of_frame (set_SETTLECOUNT_frame s v).1 (set_SETTLECOUNT_frame s v).2 h,
    ConfigInv_of_frame (set_REF_DIVIDER_frame s v).1 (set_REF_DIVIDER_frame s v).2 h,
    ConfigInv_of_frame (set_DRIVE_CURRENT_frame s v).1 (set_DRIVE_CURRENT_frame s v).2 h,
    ?_⟩
  unfold ConfigInv
  simp [FDC2214.set_ACTIVE_CHANNEL, FDC2214.writeRegister16]

theorem C9_config_bit_invariant_witness :
    ConfigInv (FDC2214.set_ACTIVE_CHANNEL FDC2214.mk 1).1 :=
  (C9_config_bit_invariant.2 FDC2214.mk 0 0 0 0 0 0 0 0 1
    C9_config_bit_invariant.1).2.2.2.2.2.2.2.2.2

/-- C10: init, readSensor, readRegister16, writeRegister16, sendByte
and the four tunable-parameter setters leave activeChannel and
chConfigBit unchanged for every input; set_ACTIVE_CHANNEL is the one
operation that modifies them. -/
theorem C10_frame_active_channel :
    (∀ (s : FDC2214.State) (r m l b1 b2 b3 b4 v : Nat),
      (FDC2214.init s).1.activeChannel = s.activeChannel ∧
      (FDC2214.init s).1.chConfigBit = s.chConfigBit ∧
      (FDC2214.sendByte s b1).1.activeChannel = s.activeChannel ∧
      (FDC2214.sendByte s b1).1.chConfigBit = s.chConfigBit ∧
      (FDC2214.writeRegister16 s r m l).1.activeChannel = s.activeChannel ∧
      (FDC2214.writeRegister16 s r m l).1.chConfigBit = s.chConfigBit ∧
      (FDC2214.readRegister16 s r b1 b2).1.activeChannel = s.activeChannel ∧
      (FDC2214.readRegister16 s r b1 b2).1.chConfigBit = s.chConfigBit ∧
      (FDC2214.readSensor s b1 b2 b3 b4).1.activeChannel = s.activeChannel ∧
      (FDC2214.readSensor s b1 b2 b3 b4).1.chConfigBit = s.chConfigBit ∧
      (FDC2214.set_RCOUNT s v).1.activeChannel = s.activeChannel ∧
      (FDC2214.set_RCOUNT s v).1.chConfigBit = s.chConfigBit ∧
      (FDC2214.set_SETTLECOUNT s v).1.activeChannel = s.activeChannel ∧
      (FDC2214.set_SETTLECOUNT s v).1.chConfigBit = s.chConfigBit ∧
      (FDC2214.set_REF_DIVIDER s v).1.activeChannel = s.activeChannel ∧
      (FDC2214.set_REF_DIVIDER s v).1.chConfigBit = s.chConfigBit ∧
      (FDC2214.set_DRIVE_CURRENT s v).1.activeChannel = s.activeChannel ∧
      (FDC2214.set_DRIVE_CURRENT s v).1.chConfigBit = s.chConfigBit) ∧
    (FDC2214.set_ACTIVE_CHANNEL FDC2214.mk 1).1.activeChannel ≠
      FDC2214.mk.activeChannel ∧
    (FDC2214.set_ACTIVE_CHANNEL FDC2214.mk 1).1.chConfigBit ≠
      FDC2214.mk.chConfigBit := by
  refine ⟨?_, by decide, by decide⟩
  intro s r m l b1 b2 b3 b4 v
  exact ⟨(init_frame s).1, (init_frame s).2,
    (sendByte_frame s b1).1, (sendByte_frame s b1).2,
    (writeRegister16_frame s r m l).1, (writeRegister16_frame s r m l).2,
    (readRegister16_frame s r b1 b2).1, (readRegister16_frame s r b1 b2).2,
    (readSensor_frame s b1 b2 b3 b4).1, (readSensor_frame s b1 b2 b3 b4).2,
    (set_RCOUNT_frame s v).1, (set_RCOUNT_frame s v).2,
    (set_SETTLECOUNT_frame s v).1, (set_SETTLECOUNT_frame s v).2,
    (set_REF_DIVIDER_frame s v).1, (set_REF_DIVIDER_frame s v).2,
    (set_DRIVE_CURRENT_frame s v).1, (set_DRIVE_CURRENT_frame s v).2⟩


lemma testBit_bitClear8_45 (b : Nat) :
    Nat.testBit (FDC2214.bitClear8 (FDC2214.bitClear8 b 5) 4) 5 = false ∧
    Nat.testBit (FDC2214.bitClear8 (FDC2214.bitClear8 b 5) 4) 4 = false := by
  have d1 : Nat.testBit 223 5 = false := by decide
  have d2 : Nat.testBit 239 4 = false := by decide
  unfold FDC2214.bitClear8
  constructor <;> simp [Nat.testBit_and, d1, d2]

lemma bitClear8_le (b n : Nat) : FDC2214.bitClear8 b n ≤ b :=
  Nat.and_le_left

/-- C3: for an active channel c in 0 and 1, readSensor sends register
2c and reads two bytes forming the most significant 16 bits, then
register 2c + 1 for the least significant 16 bits, and the result never
has bit 5 or bit 4 set in its most significant byte, whatever bytes the
transport delivers. -/
theorem C3_readSensor_assembly_mask (s : FDC2214.State) (b1 b2 b3 b4 : Nat)
    (hc : s.activeChannel < 2) :
    (FDC2214.readSensor s b1 b2 b3 b4).2.2 =
      [BusEvent.writeTx 42 [2 * s.activeChannel], BusEvent.readReq 42 2,
       BusEvent.writeTx 42 [2 * s.activeChannel + 1], BusEvent.readReq 42 2] ∧
    (FDC2214.readSensor s b1 b2 b3 b4).2.1 / 2 ^ 16 =
      FDC2214.bitClear8 (FDC2214.bitClear8 (b1 % 256) 5) 4 * 256 + b2 % 256 ∧
    (FDC2214.readSensor s b1 b2 b3 b4).2.1 % 2 ^ 16 = (b3 % 256) * 256 + b4 % 256 ∧
    Nat.testBit ((FDC2214.readSensor s b1 b2 b3 b4).2.1 / 2 ^ 24) 5 = false ∧
    Nat.testBit ((FDC2214.readSensor s b1 b2 b3 b4).2.1 / 2 ^ 24) 4 = false := by
  have hv : (FDC2214.readSensor s b1 b2 b3 b4).2.1 =
      FDC2214.bitClear8 (FDC2214.bitClear8 (b1 % 256) 5) 4 * 2 ^ 24 +
        (b2 % 256) * 2 ^ 16 + (b3 % 256) * 2 ^ 8 + b4 % 256 := by
    simp [FDC2214.readSensor, FDC2214.sendByte]
  have hA : FDC2214.bitClear8 (FDC2214.bitClear8 (b1 % 256) 5) 4 < 256 :=
    Nat.lt_of_le_of_lt
      (Nat.le_trans (bitClear8_le _ 4) (bitClear8_le _ 5))
      (Nat.mod_lt b1 (by decide))
  have h24 : (FDC2214.readSensor s b1 b2 b3 b4).2.1 / 2 ^ 24 =
      FDC2214.bitClear8 (FDC2214.bitClear8 (b1 % 256) 5) 4 := by
    rw [hv]; omega
  refine ⟨?_, ?_, ?_, ?_, ?_⟩
  · simp [FDC2214.readSensor, FDC2214.sendByte, ADDRESS]
    omega
  · rw [hv]; omega
  · rw [hv]; omega
  · rw [h24]; exact (testBit_bitClear8_45 (b1 % 256)).1
  · rw [h24]; exact (testBit_bitClear8_45 (b1 % 256)).2

theorem C3_readSensor_assembly_mask_witness :
    Nat.testBit ((FDC2214.readSensor FDC2214.mk 0xFF 0xFF 0xFF 0xFF).2.1 / 2 ^ 24) 5
      = false :=
  (C3_readSensor_assembly_mask FDC2214.mk 0xFF 0xFF 0xFF 0xFF (by decide)).2.2.2.1

/-- C2 counterexample: set_RCOUNT issues four register-write
transactions, not three, already at channel configuration 0 and value
256. -/
theorem C2_counterexample_four_not_three :
    (FDC2214.set_RCOUNT FDC2214.mk 256).2.length = 4 ∧
    (FDC2214.set_RCOUNT FDC2214.mk 256).2.length ≠ 3 := by decide

/-- C2 as amended: every tunable-parameter setter issues exactly four
register-write transactions, in order: sleep-config (main CONFIG with
the sleep bit set, offset by the current channel-config bit), the
channel-0 data register, the channel-1 data register, and wake-config
(main CONFIG with the sleep bit cleared, same offset). -/
theorem C2_setter_write_bracket (s : FDC2214.State) (v w : Nat)
    (hv : v < 65536) (hw : w < 256) :
    (FDC2214.set_RCOUNT s v).2 =
      [BusEvent.writeTx 42 [REG_CONFIG, (0x3E + s.chConfigBit) % 256, 1],
       BusEvent.writeTx 42 [REG_RCOUNT_CH0, v / 256, v % 256],
       BusEvent.writeTx 42 [REG_RCOUNT_CH1, v / 256, REG_RCOUNT_CH0],
       BusEvent.writeTx 42 [REG_CONFIG, (0x1E + s.chConfigBit) % 256, 1]] ∧
    (FDC2214.set_SETTLECOUNT s v).2 =
      [BusEvent.writeTx 42 [REG_CONFIG, (0x3E + s.chConfigBit) % 256, 1],
       BusEvent.writeTx 42 [REG_SETTLECOUNT_CH0, v / 256, v % 256],
       BusEvent.writeTx 42 [REG_SETTLECOUNT_CH1, v / 256, REG_SETTLECOUNT_CH0],
       BusEvent.writeTx 42 [REG_CONFIG, (0x1E + s.chConfigBit) % 256, 1]] ∧
    (FDC2214.set_REF_DIVIDER s w).2 =
      [BusEvent.writeTx 42 [REG_CONFIG, (0x3E + s.chConfigBit) % 256, 1],
       BusEvent.writeTx 42 [REG_CLKDIVIDERS_CH0, 0x20, w],
       BusEvent.writeTx 42 [REG_CLKDIVIDERS_CH1, 0x20, w],
       BusEvent.writeTx 42 [REG_CONFIG, (0x1E + s.chConfigBit) % 256, 1]] ∧
    (FDC2214.set_DRIVE_CURRENT s w).2 =
      [BusEvent.writeTx 42 [REG_CONFIG, (0x3E + s.chConfigBit) % 256, 1],
       BusEvent.writeTx 42 [REG_DRIVECURRENT_CH0, (w * 8) % 256, 0],
       BusEvent.writeTx 42 [REG_DRIVECURRENT_CH1, (w * 8) % 256, 0],
       BusEvent.writeTx 42 [REG_CONFIG, (0x1E + s.chConfigBit) % 256, 1]] := by
  refine ⟨?_, ?_, ?_, ?_⟩
  · simp [FDC2214.set_RCOUNT, FDC2214.writeRegister16, REG_CONFIG, REG_RCOUNT_CH0,
      REG_RCOUNT_CH1, ADDRESS]
    omega
  · simp [FDC2214.set_SETTLECOUNT, FDC2214.writeRegister16, REG_CONFIG,
      REG_SETTLECOUNT_CH0, REG_SETTLECOUNT_CH1, ADDRESS]
    omega
  · simp [FDC2214.set_REF_DIVIDER, FDC2214.writeRegister16, REG_CONFIG,
      REG_CLKDIVIDERS_CH0, REG_CLKDIVIDERS_CH1, ADDRESS]
    omega
  · simp [FDC2214.set_DRIVE_CURRENT, FDC2214.writeRegister16, REG_CONFIG,
      REG_DRIVECURRENT_CH0, REG_DRIVECURRENT_CH1, ADDRESS]

theorem C2_setter_write_bracket_witness :
    (FDC2214.set_RCOUNT FDC2214.mk 0xBEEF).2 =
      [BusEvent.writeTx 42 [26, 62, 1],
       BusEvent.writeTx 42 [8, 0xBE, 0xEF],
       BusEvent.writeTx 42 [9, 0xBE, 8],
       BusEvent.writeTx 42 [26, 30, 1]] :=
  (C2_setter_write_bracket FDC2214.mk 0xBEEF 3 (by decide) (by decide)).1

lemma init_mk_state : (FDC2214.init FDC2214.mk).1 =
    { activeChannel := 0, chConfigBit := 0, tb0 := 26, tb1 := 30, tb2 := 1, tb3 := 0 } := by
  simp [FDC2214.init, FDC2214.writeRegister16, FDC2214.mk, REG_CONFIG]

/-- C7 counterexample: after construction and init, readSensor on a
transport delivering 0x12, 0x34 for the high word and 0x56, 0x78 for
the low word returns 0x02345678 (bit 4 of the high byte 0x12 is
cleared), not 0x12345678, and not 0x12345678 with bits 20 and 21
cleared either. -/
theorem C7_counterexample_high_byte_masked :
    (FDC2214.readSensor (FDC2214.init FDC2214.mk).1 0x12 0x34 0x56 0x78).2.1
      ≠ 0x12345678 ∧
    (FDC2214.readSensor (FDC2214.init FDC2214.mk).1 0x12 0x34 0x56 0x78).2.1
      ≠ 0x12045678 := by
  rw [init_mk_state]
  decide

/-- C7 as amended: after construction (active channel 0) and init,
readSensor on a transport pre-loaded to return bytes 0x12, 0x34 for the
high-word read and 0x56, 0x78 for the low-word read yields 0x02345678:
bits 5 and 4 of the most significant byte, which are bits 29 and 28 of
the 32-bit result, are forced to 0, turning 0x12 into 0x02. -/
theorem C7_scenario_read_after_init :
    (FDC2214.readSensor (FDC2214.init FDC2214.mk).1 0x12 0x34 0x56 0x78).2.1
      = 0x02345678 ∧
    Nat.testBit
      (FDC2214.readSensor (FDC2214.init FDC2214.mk).1 0x12 0x34 0x56 0x78).2.1 29
      = false ∧
    Nat.testBit
      (FDC2214.readSensor (FDC2214.init FDC2214.mk).1 0x12 0x34 0x56 0x78).2.1 28
      = false := by
  rw [init_mk_state]
  decide

end LickStick
